import Mathlib

/-!
Shallow embedding of `deepchem/dock/pose_generation.py` (Autodock Vina pose
generation orchestration) and proofs about its behaviour.

Coordinates are modelled as rationals; the collaborators that live outside the
embedded file (rdkit molecule loading, the pocket finder, the subprocess
launcher) are modelled as oracles supplied through a `Collab` structure.
Filesystem writes and subprocess invocations performed by the embedded code
are recorded as an ordered trace of `Effect`s; a filesystem state is replayed
from that trace.  All file paths produced by the workflow live in the job's
working directory, so the filesystem is keyed by the file name inside that
directory.
-/

/-- A 3-d point or box-dimension triple, as used throughout the module. -/
structure Vec3 where
  x : ℚ
  y : ℚ
  z : ℚ
deriving DecidableEq

/-- Numpy-style broadcast addition of a scalar, used for `protein_range + 5.0`. -/
def Vec3.addScalar (v : Vec3) (s : ℚ) : Vec3 :=
  ⟨v.x + s, v.y + s, v.z + s⟩

/-- An rdkit molecule object, abstracted to an identity: the embedded code
never inspects it, it only hands it to `write_molecule`. -/
structure Molecule where
  tag : Nat
deriving DecidableEq

/-- A detected binding pocket: the per-axis `(min, max)` bounds unpacked by
`generate_poses` as `(x_min, x_max), (y_min, y_max), (z_min, z_max) = pocket`. -/
structure Pocket where
  x_min : ℚ
  x_max : ℚ
  y_min : ℚ
  y_max : ℚ
  z_min : ℚ
  z_max : ℚ
deriving DecidableEq

/-- Modelled from the spec: the pocket detector (`binding_pocket.py`, which is
not part of the embedded file) returns one coordinate set per pocket.  The
coordinate set is stored axis-major (one row per axis, one column per point),
so the numpy reduction `np.mean(pocket_coord, axis=1)` is the per-axis mean
over the pocket's points. -/
structure PocketCoords where
  xs : List ℚ
  ys : List ℚ
  zs : List ℚ
deriving DecidableEq

/-- Arithmetic mean of a list of rationals (0 for the empty list). -/
def listMean (l : List ℚ) : ℚ :=
  l.sum / (l.length : ℚ)

/-- Numpy mean along axis 1 of an axis-major coordinate set, as in
`np.mean(pocket_coord, axis=1)`. -/
def npMeanAxis1 (pc : PocketCoords) : Vec3 :=
  ⟨listMean pc.xs, listMean pc.ys, listMean pc.zs⟩

/-- The list of points of an axis-major coordinate set (its transpose). -/
def PocketCoords.points (pc : PocketCoords) : List Vec3 :=
  (pc.xs.zip (pc.ys.zip pc.zs)).map (fun t => ⟨t.1, t.2.1, t.2.2⟩)

/-- Per-axis arithmetic mean over a list of points. -/
def centroidOfPoints (ps : List Vec3) : Vec3 :=
  ⟨listMean (ps.map Vec3.x), listMean (ps.map Vec3.y), listMean (ps.map Vec3.z)⟩

/-- Maximum of a list of rationals (0 for the empty list). -/
def listMax : List ℚ → ℚ
  | [] => 0
  | a :: t => t.foldl max a

/-- Minimum of a list of rationals (0 for the empty list). -/
def listMin : List ℚ → ℚ
  | [] => 0
  | a :: t => t.foldl min a

/-- Modelled from the spec: the geometry utility `mol_xyz_util` (not part of
the embedded file) computes the geometric centroid of a molecule's coordinate
set as the per-axis mean. -/
def get_molecule_centroid (xyz : List Vec3) : Vec3 :=
  ⟨listMean (xyz.map Vec3.x), listMean (xyz.map Vec3.y), listMean (xyz.map Vec3.z)⟩

/-- Modelled from the spec: the geometry utility `mol_xyz_util` (not part of
the embedded file) computes a molecule's axis-aligned extent as the per-axis
difference between the maximal and minimal coordinate. -/
def get_molecule_range (xyz : List Vec3) : Vec3 :=
  ⟨listMax (xyz.map Vec3.x) - listMin (xyz.map Vec3.x),
   listMax (xyz.map Vec3.y) - listMin (xyz.map Vec3.y),
   listMax (xyz.map Vec3.z) - listMin (xyz.map Vec3.z)⟩

/-- Left-pads a decimal digit string with zeros to width 6, like the
fractional part of C `%f` formatting. -/
def padZeros6 (s : String) : String :=
  String.mk (List.replicate (6 - s.length) ('0' : Char)) ++ s

/-- Python `"%f" % q` rendering of a rational: fixed-point notation with six
digits after the decimal point.  Rounding is modelled as the floor of
`q * 10^6 + 1/2`, computed on the numerator and denominator directly; the
proofs only use this rendering up to its syntactic identity, which is what
the round-trip property concedes by "up to float formatting". -/
def fmtRat6 (q : ℚ) : String :=
  let n : Int := Int.fdiv (q.num * 2000000 + (q.den : Int)) (2 * (q.den : Int))
  let sgn := if n < 0 then "-" else ""
  let m : Nat := n.natAbs
  sgn ++ toString (m / 1000000) ++ "." ++ padZeros6 (toString (m % 1000000))

/-- The lines of the Vina configuration file emitted by `write_conf`
(`pose_generation.py`, lines 27-47).  Each `f.write` with a trailing newline
contributes one line; a double newline contributes the line plus a following
blank line.  The `exhaustiveness` line is emitted only when the argument is
not `None`.  The original writes the text to `conf_filename`; here the lines
are returned and the filesystem write is recorded as an `Effect` by the
caller. -/
def write_conf (receptor_filename ligand_filename : String)
    (centroid box_dims : Vec3) (exhaustiveness : Option Int) : List String :=
  ["receptor = " ++ receptor_filename,
   "ligand = " ++ ligand_filename,
   "",
   "center_x = " ++ fmtRat6 centroid.x,
   "center_y = " ++ fmtRat6 centroid.y,
   "center_z = " ++ fmtRat6 centroid.z,
   "",
   "size_x = " ++ fmtRat6 box_dims.x,
   "size_y = " ++ fmtRat6 box_dims.y,
   "size_z = " ++ fmtRat6 box_dims.z,
   ""]
  ++ (match exhaustiveness with
      | none => []
      | some n => ["exhaustiveness = " ++ toString n])

/-- Flat text content of the configuration file: each line followed by a
newline character. -/
def confContent (lines : List String) : String :=
  String.join (lines.map (fun s => s ++ "\n"))

/-- Splits a configuration line at the first occurrence of the three-character
separator (space, equals sign, space), returning the key and the untouched
remainder of the line. -/
def splitKVChars : List Char → Option (List Char × List Char)
  | [] => none
  | c :: rest =>
    if c = ' ' ∧ rest.take 2 = ['=', ' '] then
      some ([], rest.drop 2)
    else
      match splitKVChars rest with
      | none => none
      | some kv => some (c :: kv.1, kv.2)

/-- Parses the key=value pairs out of a list of configuration lines, skipping
lines without a separator (such as the blank spacer lines). -/
def parseConfLines (lines : List String) : List (String × String) :=
  lines.filterMap (fun s =>
    match splitKVChars s.data with
    | none => none
    | some kv => some (String.mk kv.1, String.mk kv.2))

/-- Error modes of the workflow, following the specification's taxonomy.
`pocketDetectionError` models the failure of `pocket_coords[0]` and
`pockets[0]` on an empty detector result; `moleculeLoadError` models a
failing `rdkit_util.load_molecule` call, propagated unchanged. -/
inductive DockError where
  | moleculeLoadError (file : String)
  | pocketDetectionError
deriving DecidableEq

/-- Contents a replayed filesystem can hold: a molecule written through
`rdkit_util.write_molecule` (tagged with its `is_protein` flag) or a
configuration file written through `write_conf`. -/
inductive FileContent where
  | mol (m : Molecule) (is_protein : Bool)
  | conf (lines : List String)
deriving DecidableEq

/-- One observable step of the workflow, in program order. -/
inductive Effect where
  | loadMolecule (file : String)
  | writeMolecule (path : String) (m : Molecule) (is_protein : Bool)
  | findPockets (protein_file ligand_file : String)
  | writeConf (path : String) (lines : List String)
  | callVina (conf_file log_file out_file : String)
deriving DecidableEq

/-- Does this effect write the file named `q`? -/
def Effect.writesTo (e : Effect) (q : String) : Bool :=
  match e with
  | .writeMolecule pth _ _ => pth == q
  | .writeConf pth _ => pth == q
  | _ => false

/-- Is this effect a docking-engine subprocess invocation? -/
def Effect.isCall (e : Effect) : Bool :=
  match e with
  | .callVina _ _ _ => true
  | _ => false

/-- External collaborators of the workflow.  `loadMol` models
`rdkit_util.load_molecule` with hydrogens and charges requested, returning
the coordinate array and the molecule object (or failing); `findPockets`
models `RFConvexHullPocketFinder.find_pockets`, returning pockets, atom-index
maps and coordinate sets; `vinaExit` is the exit status the docking
subprocess would report. -/
structure Collab where
  loadMol : String → Option (List Vec3 × Molecule)
  findPockets : String → String → List Pocket × List (List Nat) × List PocketCoords
  vinaExit : Int

/-- Per-generator configuration fixed by `VinaPoseGenerator.__init__`. -/
structure VinaPoseGenerator where
  exhaustiveness : Int
  detect_pockets : Bool
deriving DecidableEq

/-- The defaults of `VinaPoseGenerator.__init__`: `exhaustiveness=10`,
`detect_pockets=True`. -/
def VinaPoseGenerator.default : VinaPoseGenerator :=
  ⟨10, true⟩

/-- Python `os.path.basename(p).split(".")[0]`: the part of the path after
the last slash and before the first subsequent dot. -/
def pyBaseStem (p : String) : String :=
  String.mk (((p.data.reverse.takeWhile (fun c => c ≠ '/')).reverse).takeWhile
    (fun c => c ≠ '.'))

/-- Result of `generate_poses`: the returned pair of paths together with the
ordered effect trace of the run. -/
structure GPOutput where
  protein_hyd : String
  out_pdbqt : String
  trace : List Effect
deriving DecidableEq

/-- Lines 128-162 of `pose_generation.py`: derive the receptor artifact names
and resolve the docking search region.  If both `centroid` and `box_dims`
were passed they are used as-is; otherwise, with pocket detection disabled,
the receptor is loaded, its hydrogenated and pdbqt files are written and the
region is the whole-molecule bounding box padded by 5.0; otherwise the pocket
finder runs and the first pocket's mean coordinate and half-spans are used.
Returns the resolved centroid, the resolved box dimensions and the effect
trace of this phase. -/
def VinaPoseGenerator.resolve_search_region (g : VinaPoseGenerator) (co : Collab)
    (protein_file ligand_file : String) (centroid box_dims : Option Vec3) :
    Except DockError (Vec3 × Vec3 × List Effect) :=
  let receptor_name := pyBaseStem protein_file
  let protein_hyd := receptor_name ++ "_hyd.pdb"
  let protein_pdbqt := receptor_name ++ ".pdbqt"
  match centroid, box_dims with
  | some c, some b => .ok (c, b, [])
  | _, _ =>
    if !g.detect_pockets then
      match co.loadMol protein_file with
      | none => .error (.moleculeLoadError protein_file)
      | some receptor_mol =>
        let protein_centroid := get_molecule_centroid receptor_mol.1
        let protein_range := get_molecule_range receptor_mol.1
        .ok (protein_centroid, protein_range.addScalar 5,
          [.loadMolecule protein_file,
           .writeMolecule protein_hyd receptor_mol.2 true,
           .writeMolecule protein_pdbqt receptor_mol.2 true])
    else
      let found := co.findPockets protein_file ligand_file
      match found.2.2 with
      | [] => .error .pocketDetectionError
      | pocket_coord :: _ =>
        match found.1 with
        | [] => .error .pocketDetectionError
        | pocket :: _ =>
          let protein_centroid := npMeanAxis1 pocket_coord
          let x_box := (pocket.x_max - pocket.x_min) / 2
          let y_box := (pocket.y_max - pocket.y_min) / 2
          let z_box := (pocket.z_max - pocket.z_min) / 2
          .ok (protein_centroid, ⟨x_box, y_box, z_box⟩,
            [.findPockets protein_file ligand_file])

/-- Lines 104-195 of `pose_generation.py`: the full orchestration.  Resolves
the search region (which, in the fallback branch, is also where the receptor
files are written), prepares the ligand, writes the Vina configuration and,
unless `dry_run` is set, invokes the engine; the exit status the subprocess
reports (`co.vinaExit`) is never consulted.  Returns the hydrogenated
receptor path and the docked-output path together with the effect trace. -/
def VinaPoseGenerator.generate_poses (g : VinaPoseGenerator) (co : Collab)
    (protein_file ligand_file : String) (centroid box_dims : Option Vec3)
    (dry_run : Bool) : Except DockError GPOutput :=
  let receptor_name := pyBaseStem protein_file
  let protein_hyd := receptor_name ++ "_hyd.pdb"
  let protein_pdbqt := receptor_name ++ ".pdbqt"
  match g.resolve_search_region co protein_file ligand_file centroid box_dims with
  | .error e => .error e
  | .ok region =>
    let ligand_name := pyBaseStem ligand_file
    let ligand_pdbqt := ligand_name ++ ".pdbqt"
    match co.loadMol ligand_file with
    | none => .error (.moleculeLoadError ligand_file)
    | some ligand_mol =>
      let conf_file := "conf.txt"
      let lines := write_conf protein_pdbqt ligand_pdbqt region.1 region.2.1
        (some g.exhaustiveness)
      let log_file := ligand_name ++ "_log.txt"
      let out_pdbqt := ligand_name ++ "_docked.pdbqt"
      let tr := region.2.2 ++
        [.loadMolecule ligand_file,
         .writeMolecule ligand_pdbqt ligand_mol.2 false,
         .writeConf conf_file lines] ++
        (if dry_run then [] else [.callVina conf_file log_file out_pdbqt])
      .ok ⟨protein_hyd, out_pdbqt, tr⟩

/-- A filesystem state: file name to content. -/
def FS : Type :=
  String → Option FileContent

/-- Overwrite the file named `p` with content `c`. -/
def fsWrite (fs : FS) (p : String) (c : FileContent) : FS :=
  fun q => if q = p then some c else fs q

/-- The filesystem change of a single effect.  Loading, pocket finding and
the engine invocation itself do not write any of the modelled files. -/
def applyEffect (fs : FS) : Effect → FS
  | .writeMolecule p m ip => fsWrite fs p (.mol m ip)
  | .writeConf p lines => fsWrite fs p (.conf lines)
  | _ => fs

/-- Replay a trace of effects over a filesystem state. -/
def runFS (fs : FS) (tr : List Effect) : FS :=
  tr.foldl applyEffect fs

/-! Helper lemmas: strings built by appending distinct suffixes are distinct. -/

theorem str_ext (a b : String) (h : a.data = b.data) : a = b := by
  cases a
  cases b
  exact congrArg String.mk h

theorem list_append_ne_of_take_rev (u v : List Char) (k : Nat)
    (hu : k ≤ u.length) (hv : k ≤ v.length)
    (hne : u.reverse.take k ≠ v.reverse.take k) (a b : List Char) :
    a ++ u ≠ b ++ v := by
  intro h
  apply hne
  have h1 : u.reverse ++ a.reverse = v.reverse ++ b.reverse := by
    rw [← List.reverse_append, ← List.reverse_append, h]
  have h2 := congrArg (List.take k) h1
  rwa [List.take_append_of_le_length (by simpa using hu),
    List.take_append_of_le_length (by simpa using hv)] at h2

theorem str_append_ne (u v : String) (k : Nat)
    (hu : k ≤ u.data.length) (hv : k ≤ v.data.length)
    (hne : u.data.reverse.take k ≠ v.data.reverse.take k) (a b : String) :
    a ++ u ≠ b ++ v := by
  intro h
  exact list_append_ne_of_take_rev u.data v.data k hu hv hne a.data b.data
    (by rw [← String.data_append, ← String.data_append, h])

theorem str_append_ne_lit (u t : String) (k : Nat)
    (hu : k ≤ u.data.length) (ht : k ≤ t.data.length)
    (hne : u.data.reverse.take k ≠ t.data.reverse.take k) (a : String) :
    a ++ u ≠ t := by
  intro h
  refine list_append_ne_of_take_rev u.data t.data k hu ht hne a.data [] ?_
  rw [← String.data_append, h]
  simp

theorem str_append_right_cancel_ne (u a b : String) (h : a ≠ b) :
    a ++ u ≠ b ++ u := by
  intro he
  apply h
  apply str_ext
  have hd : a.data ++ u.data = b.data ++ u.data := by
    rw [← String.data_append, ← String.data_append, he]
  exact List.append_cancel_right hd

theorem str_append_left_cancel_ne (a u v : String) (h : u ≠ v) :
    a ++ u ≠ a ++ v := by
  intro he
  apply h
  apply str_ext
  have hd : a.data ++ u.data = a.data ++ v.data := by
    rw [← String.data_append, ← String.data_append, he]
  exact List.append_cancel_left hd

theorem str_append_assoc (a b c : String) : a ++ b ++ c = a ++ (b ++ c) := by
  apply str_ext
  simp [String.data_append, List.append_assoc]

/-! Helper lemmas: parsing the emitted configuration lines. -/

theorem splitKVChars_key (k : List Char) (hk : ∀ c ∈ k, c ≠ ' ') (v : List Char) :
    splitKVChars (k ++ ' ' :: '=' :: ' ' :: v) = some (k, v) := by
  induction k with
  | nil => simp [splitKVChars]
  | cons c t ih =>
    have hc : c ≠ ' ' := hk c (List.mem_cons_self c t)
    have ht := ih (fun d hd => hk d (List.mem_cons_of_mem c hd))
    simp [splitKVChars, hc, ht]

theorem splitKV_line (p k v : String)
    (hp : p.data = k.data ++ ' ' :: '=' :: ' ' :: [])
    (hk : ∀ c ∈ k.data, c ≠ ' ') :
    splitKVChars ((p ++ v).data) = some (k.data, v.data) := by
  rw [String.data_append, hp, List.append_assoc]
  exact splitKVChars_key k.data hk v.data

/-! Helper lemmas: replaying effect traces over a filesystem state. -/

theorem runFS_append (fs : FS) (tr₁ tr₂ : List Effect) :
    runFS fs (tr₁ ++ tr₂) = runFS (runFS fs tr₁) tr₂ := by
  simp [runFS, List.foldl_append]

theorem applyEffect_not_written (fs : FS) (e : Effect) (q : String)
    (h : e.writesTo q = false) : applyEffect fs e q = fs q := by
  cases e with
  | writeMolecule pth m ip =>
    simp only [Effect.writesTo, beq_eq_false_iff_ne, ne_eq] at h
    have hq : q ≠ pth := fun hq => h hq.symm
    simp [applyEffect, fsWrite, hq]
  | writeConf pth lines =>
    simp only [Effect.writesTo, beq_eq_false_iff_ne, ne_eq] at h
    have hq : q ≠ pth := fun hq => h hq.symm
    simp [applyEffect, fsWrite, hq]
  | loadMolecule file => rfl
  | findPockets pf lf => rfl
  | callVina c l o => rfl

theorem runFS_not_written (tr : List Effect) (q : String)
    (h : ∀ e ∈ tr, e.writesTo q = false) (fs : FS) :
    runFS fs tr q = fs q := by
  induction tr generalizing fs with
  | nil => rfl
  | cons e t ih =>
    have he : e.writesTo q = false := h e (List.mem_cons_self e t)
    have ht := ih (fun d hd => h d (List.mem_cons_of_mem e hd))
    calc runFS fs (e :: t) q = runFS (applyEffect fs e) t q := rfl
      _ = applyEffect fs e q := ht (applyEffect fs e)
      _ = fs q := applyEffect_not_written fs e q he

/-! Helper lemmas: the three search-region branches and the orchestration. -/

theorem resolve_explicit (g : VinaPoseGenerator) (co : Collab) (p l : String)
    (c b : Vec3) :
    g.resolve_search_region co p l (some c) (some b) = .ok (c, b, []) := rfl

theorem resolve_fallback (g : VinaPoseGenerator) (co : Collab) (p l : String)
    (hdp : g.detect_pockets = false) (xyz : List Vec3) (m : Molecule)
    (hload : co.loadMol p = some (xyz, m)) :
    g.resolve_search_region co p l none none =
      .ok (get_molecule_centroid xyz, (get_molecule_range xyz).addScalar 5,
        [.loadMolecule p,
         .writeMolecule (pyBaseStem p ++ "_hyd.pdb") m true,
         .writeMolecule (pyBaseStem p ++ ".pdbqt") m true]) := by
  simp [VinaPoseGenerator.resolve_search_region, hdp, hload]

theorem resolve_pocket (g : VinaPoseGenerator) (co : Collab) (p l : String)
    (hdp : g.detect_pockets = true)
    (pk : Pocket) (pks : List Pocket) (ams : List (List Nat))
    (pc : PocketCoords) (pcs : List PocketCoords)
    (hfp : co.findPockets p l = (pk :: pks, ams, pc :: pcs)) :
    g.resolve_search_region co p l none none =
      .ok (npMeanAxis1 pc,
        ⟨(pk.x_max - pk.x_min) / 2, (pk.y_max - pk.y_min) / 2,
         (pk.z_max - pk.z_min) / 2⟩,
        [.findPockets p l]) := by
  simp [VinaPoseGenerator.resolve_search_region, hdp, hfp]

theorem resolve_pocket_empty (g : VinaPoseGenerator) (co : Collab) (p l : String)
    (hdp : g.detect_pockets = true) (ams : List (List Nat))
    (hfp : co.findPockets p l = ([], ams, [])) :
    g.resolve_search_region co p l none none = .error .pocketDetectionError := by
  simp [VinaPoseGenerator.resolve_search_region, hdp, hfp]

theorem resolve_fallback_err (g : VinaPoseGenerator) (co : Collab) (p l : String)
    (hdp : g.detect_pockets = false) (hl : co.loadMol p = none) :
    g.resolve_search_region co p l none none = .error (.moleculeLoadError p) := by
  simp [VinaPoseGenerator.resolve_search_region, hdp, hl]

theorem resolve_pocket_coords_empty (g : VinaPoseGenerator) (co : Collab)
    (p l : String) (hdp : g.detect_pockets = true)
    (pks : List Pocket) (ams : List (List Nat))
    (hfp : co.findPockets p l = (pks, ams, [])) :
    g.resolve_search_region co p l none none = .error .pocketDetectionError := by
  simp [VinaPoseGenerator.resolve_search_region, hdp, hfp]

theorem resolve_pockets_empty (g : VinaPoseGenerator) (co : Collab)
    (p l : String) (hdp : g.detect_pockets = true) (ams : List (List Nat))
    (pc0 : PocketCoords) (pcs : List PocketCoords)
    (hfp : co.findPockets p l = ([], ams, pc0 :: pcs)) :
    g.resolve_search_region co p l none none = .error .pocketDetectionError := by
  simp [VinaPoseGenerator.resolve_search_region, hdp, hfp]

theorem generate_poses_ok (g : VinaPoseGenerator) (co : Collab)
    (p l : String) (c b : Option Vec3) (d : Bool)
    (pc bd : Vec3) (tr₀ : List Effect) (lxyz : List Vec3) (lm : Molecule)
    (hres : g.resolve_search_region co p l c b = .ok (pc, bd, tr₀))
    (hload : co.loadMol l = some (lxyz, lm)) :
    g.generate_poses co p l c b d = .ok
      ⟨pyBaseStem p ++ "_hyd.pdb", pyBaseStem l ++ "_docked.pdbqt",
       tr₀ ++ [.loadMolecule l,
               .writeMolecule (pyBaseStem l ++ ".pdbqt") lm false,
               .writeConf ("conf.txt")
                 (write_conf (pyBaseStem p ++ ".pdbqt") (pyBaseStem l ++ ".pdbqt")
                   pc bd (some g.exhaustiveness))] ++
       (if d then [] else
         [.callVina ("conf.txt") (pyBaseStem l ++ "_log.txt")
           (pyBaseStem l ++ "_docked.pdbqt")])⟩ := by
  simp [VinaPoseGenerator.generate_poses, hres, hload]

theorem generate_poses_ok_inv (g : VinaPoseGenerator) (co : Collab)
    (p l : String) (c b : Option Vec3) (d : Bool) (out : GPOutput)
    (h : g.generate_poses co p l c b d = .ok out) :
    ∃ pc bd tr₀ lxyz lm,
      g.resolve_search_region co p l c b = .ok (pc, bd, tr₀) ∧
      co.loadMol l = some (lxyz, lm) ∧
      out = ⟨pyBaseStem p ++ "_hyd.pdb", pyBaseStem l ++ "_docked.pdbqt",
        tr₀ ++ [.loadMolecule l,
                .writeMolecule (pyBaseStem l ++ ".pdbqt") lm false,
                .writeConf ("conf.txt")
                  (write_conf (pyBaseStem p ++ ".pdbqt") (pyBaseStem l ++ ".pdbqt")
                    pc bd (some g.exhaustiveness))] ++
        (if d then [] else
          [.callVina ("conf.txt") (pyBaseStem l ++ "_log.txt")
            (pyBaseStem l ++ "_docked.pdbqt")])⟩ := by
  simp only [VinaPoseGenerator.generate_poses] at h
  cases hres : g.resolve_search_region co p l c b with
  | error e =>
    rw [hres] at h
    simp at h
  | ok region =>
    obtain ⟨pc, bd, tr₀⟩ := region
    rw [hres] at h
    cases hload : co.loadMol l with
    | none =>
      rw [hload] at h
      simp at h
    | some lmp =>
      obtain ⟨lxyz, lm⟩ := lmp
      rw [hload] at h
      simp only [Except.ok.injEq] at h
      exact ⟨pc, bd, tr₀, lxyz, lm, rfl, rfl, h.symm⟩

/-! Concrete collaborators used to instantiate the theorems. -/

/-- A collaborator whose detector finds no pockets and whose loader fails. -/
def coEmpty : Collab :=
  ⟨fun _ => none, fun _ _ => ([], [], []), 0⟩

/-- A collaborator whose loader returns an empty coordinate set and whose
detector finds nothing. -/
def coStd : Collab :=
  ⟨fun _ => some ([], ⟨0⟩), fun _ _ => ([], [], []), 0⟩

/-- A receptor with extent `[(0,10), (0,20), (0,5)]`. -/
def extentXyz : List Vec3 :=
  [⟨0, 0, 0⟩, ⟨10, 20, 5⟩]

/-- A collaborator whose loader returns the `extentXyz` receptor. -/
def coExtent : Collab :=
  ⟨fun _ => some (extentXyz, ⟨1⟩), fun _ _ => ([], [], []), 0⟩

/-- A generator with pocket detection disabled. -/
def gNoPockets : VinaPoseGenerator :=
  ⟨10, false⟩

/-- First pocket used in the pocket-selection instances. -/
def pocketA : Pocket :=
  ⟨0, 2, 0, 4, 0, 6⟩

/-- A second, different pocket. -/
def pocketB : Pocket :=
  ⟨1, 9, 1, 9, 1, 9⟩

/-- Coordinate set of the first pocket: points (1,2,0) and (3,2,6). -/
def coordsA : PocketCoords :=
  ⟨[1, 3], [2, 2], [0, 6]⟩

/-- Coordinate set of the second pocket. -/
def coordsB : PocketCoords :=
  ⟨[5], [5], [5]⟩

/-- A collaborator whose detector returns two pockets, `pocketA` first. -/
def coPocket1 : Collab :=
  ⟨fun _ => some ([], ⟨0⟩), fun _ _ => ([pocketA, pocketB], [], [coordsA, coordsB]), 0⟩

/-- A collaborator whose detector returns only `pocketA`, with a different
atom-index map. -/
def coPocket2 : Collab :=
  ⟨fun _ => some ([], ⟨0⟩), fun _ _ => ([pocketA], [[3]], [coordsA]), 0⟩

/-! The mean over an axis-major coordinate set is the mean over its points. -/

theorem points_map_x (xs ys zs : List ℚ) (h : (ys.zip zs).length = xs.length) :
    (PocketCoords.points ⟨xs, ys, zs⟩).map Vec3.x = xs := by
  simp only [PocketCoords.points, List.map_map]
  exact List.map_fst_zip xs (ys.zip zs) (le_of_eq h.symm)

theorem points_map_y (xs ys zs : List ℚ)
    (hy : ys.length = xs.length) (hz : zs.length = xs.length) :
    (PocketCoords.points ⟨xs, ys, zs⟩).map Vec3.y = ys := by
  simp only [PocketCoords.points, List.map_map]
  have h1 : List.map (Prod.fst ∘ Prod.snd) (xs.zip (ys.zip zs)) = ys := by
    rw [← List.map_map]
    rw [List.map_snd_zip xs (ys.zip zs) (by simp [List.length_zip, hy, hz])]
    exact List.map_fst_zip ys zs (by rw [hy, hz])
  exact h1

theorem points_map_z (xs ys zs : List ℚ)
    (hy : ys.length = xs.length) (hz : zs.length = xs.length) :
    (PocketCoords.points ⟨xs, ys, zs⟩).map Vec3.z = zs := by
  simp only [PocketCoords.points, List.map_map]
  have h1 : List.map (Prod.snd ∘ Prod.snd) (xs.zip (ys.zip zs)) = zs := by
    rw [← List.map_map]
    rw [List.map_snd_zip xs (ys.zip zs) (by simp [List.length_zip, hy, hz])]
    exact List.map_snd_zip ys zs (by rw [hy, hz])
  exact h1

theorem mean_points_eq (pc : PocketCoords)
    (hy : pc.ys.length = pc.xs.length) (hz : pc.zs.length = pc.xs.length) :
    npMeanAxis1 pc = centroidOfPoints pc.points := by
  obtain ⟨xs, ys, zs⟩ := pc
  simp only at hy hz
  have hzip : (ys.zip zs).length = xs.length := by
    simp [List.length_zip, hy, hz]
  unfold npMeanAxis1 centroidOfPoints
  rw [points_map_x xs ys zs hzip, points_map_y xs ys zs hy hz,
    points_map_z xs ys zs hy hz]

/-- C4: when both `centroid` and `box_dims` are supplied, the resolved search
region is exactly the supplied pair, unmodified, for every generator
configuration (hence regardless of `detect_pockets`) and every collaborator
(hence receptor loading and pocket detection cannot influence it); the
resolution phase performs no effect. -/
theorem C4_explicit_region_precedence (g : VinaPoseGenerator) (co : Collab)
    (p l : String) (c b : Vec3) :
    g.resolve_search_region co p l (some c) (some b) = .ok (c, b, []) :=
  rfl

/-- C9: supplying only one of `centroid` and `box_dims` is the same call as
supplying neither: the run (result and effects) is identical to the run with
both omitted, in every generator configuration, for every collaborator and
for either `dry_run` setting. -/
theorem C9_partial_region_ignored (g : VinaPoseGenerator) (co : Collab)
    (p l : String) (c b : Vec3) (d : Bool) :
    g.generate_poses co p l (some c) none d = g.generate_poses co p l none none d ∧
    g.generate_poses co p l none (some b) d = g.generate_poses co p l none none d :=
  ⟨rfl, rfl⟩

/-- C3: with pocket detection enabled and no explicit region, a detector that
returns the empty pocket list makes `generate_poses` fail with
`PocketDetectionError`; no search region is produced. -/
theorem C3_empty_pockets_error (g : VinaPoseGenerator) (co : Collab)
    (p l : String) (d : Bool) (ams : List (List Nat))
    (hdp : g.detect_pockets = true)
    (hfp : co.findPockets p l = ([], ams, [])) :
    g.generate_poses co p l none none d = .error .pocketDetectionError := by
  have hres := resolve_pocket_empty g co p l hdp ams hfp
  simp [VinaPoseGenerator.generate_poses, hres]

theorem C3_empty_pockets_error_witness :
    VinaPoseGenerator.default.detect_pockets = true ∧
    coEmpty.findPockets ("p.pdb") ("l.sdf") = ([], [], []) ∧
    VinaPoseGenerator.default.generate_poses coEmpty ("p.pdb") ("l.sdf")
        none none false = .error .pocketDetectionError :=
  ⟨rfl, rfl, C3_empty_pockets_error VinaPoseGenerator.default coEmpty
    ("p.pdb") ("l.sdf") false [] rfl rfl⟩

/-- C2: with pocket detection enabled and no explicit region, the resolver
uses the pocket at index 0: the centroid is the per-axis mean over that
pocket's points (given a well-formed, equal-length coordinate set), the box
dimension on each axis is half of that pocket's `max - min` bound, and a
second collaborator whose detector returns the same first pocket but
arbitrary other pockets, maps and coordinate tails resolves to the same
region. -/
theorem C2_pocket_selection (g : VinaPoseGenerator) (co co2 : Collab)
    (p l : String) (pk : Pocket) (pks pks2 : List Pocket)
    (ams ams2 : List (List Nat)) (pc : PocketCoords) (pcs pcs2 : List PocketCoords)
    (hdp : g.detect_pockets = true)
    (hfp : co.findPockets p l = (pk :: pks, ams, pc :: pcs))
    (hfp2 : co2.findPockets p l = (pk :: pks2, ams2, pc :: pcs2))
    (hy : pc.ys.length = pc.xs.length) (hz : pc.zs.length = pc.xs.length) :
    g.resolve_search_region co p l none none =
      .ok (centroidOfPoints pc.points,
        ⟨(pk.x_max - pk.x_min) / 2, (pk.y_max - pk.y_min) / 2,
         (pk.z_max - pk.z_min) / 2⟩,
        [.findPockets p l]) ∧
    g.resolve_search_region co2 p l none none =
      g.resolve_search_region co p l none none := by
  have h1 := resolve_pocket g co p l hdp pk pks ams pc pcs hfp
  have h2 := resolve_pocket g co2 p l hdp pk pks2 ams2 pc pcs2 hfp2
  have hmean := mean_points_eq pc hy hz
  constructor
  · rw [h1, hmean]
  · rw [h1, h2]

theorem C2_pocket_selection_witness :
    VinaPoseGenerator.default.detect_pockets = true ∧
    coordsA.ys.length = coordsA.xs.length ∧
    VinaPoseGenerator.default.resolve_search_region coPocket1 ("p.pdb") ("l.sdf")
        none none =
      .ok (centroidOfPoints coordsA.points, ⟨1, 2, 3⟩,
        [.findPockets ("p.pdb") ("l.sdf")]) ∧
    VinaPoseGenerator.default.resolve_search_region coPocket2 ("p.pdb") ("l.sdf")
        none none =
      VinaPoseGenerator.default.resolve_search_region coPocket1 ("p.pdb") ("l.sdf")
        none none := by
  have h := C2_pocket_selection VinaPoseGenerator.default coPocket1 coPocket2
    ("p.pdb") ("l.sdf") pocketA [pocketB] [] [] [[3]] coordsA [coordsB] []
    rfl rfl rfl rfl rfl
  refine ⟨rfl, rfl, ?_, h.2⟩
  rw [h.1]
  have hbox : (⟨(pocketA.x_max - pocketA.x_min) / 2, (pocketA.y_max - pocketA.y_min) / 2,
      (pocketA.z_max - pocketA.z_min) / 2⟩ : Vec3) = ⟨1, 2, 3⟩ := by
    simp only [pocketA, Vec3.mk.injEq]
    norm_num
  rw [hbox]

/-- C5: with pocket detection disabled and no explicit region, the resolved
centroid is the receptor's geometric centroid and the resolved box dimension
on each axis is the receptor's coordinate range on that axis plus exactly
5.0. -/
theorem C5_padding_fallback (g : VinaPoseGenerator) (co : Collab) (p l : String)
    (hdp : g.detect_pockets = false) (xyz : List Vec3) (m : Molecule)
    (hload : co.loadMol p = some (xyz, m)) :
    g.resolve_search_region co p l none none =
      .ok (get_molecule_centroid xyz,
        ⟨(get_molecule_range xyz).x + 5, (get_molecule_range xyz).y + 5,
         (get_molecule_range xyz).z + 5⟩,
        [.loadMolecule p,
         .writeMolecule (pyBaseStem p ++ "_hyd.pdb") m true,
         .writeMolecule (pyBaseStem p ++ ".pdbqt") m true]) :=
  resolve_fallback g co p l hdp xyz m hload

theorem C5_padding_fallback_witness :
    gNoPockets.detect_pockets = false ∧
    coExtent.loadMol ("rec.pdb") = some (extentXyz, ⟨1⟩) ∧
    gNoPockets.resolve_search_region coExtent ("rec.pdb") ("lig.sdf") none none =
      .ok (⟨5, 10, 5/2⟩, ⟨15, 25, 10⟩,
        [.loadMolecule ("rec.pdb"),
         .writeMolecule ("rec_hyd.pdb") ⟨1⟩ true,
         .writeMolecule ("rec.pdbqt") ⟨1⟩ true]) := by
  have h := C5_padding_fallback gNoPockets coExtent ("rec.pdb") ("lig.sdf") rfl
    extentXyz ⟨1⟩ rfl
  refine ⟨rfl, rfl, ?_⟩
  rw [h]
  have hc : get_molecule_centroid extentXyz = ⟨5, 10, 5/2⟩ := by
    simp only [extentXyz, get_molecule_centroid, listMean, List.map, Vec3.mk.injEq]
    norm_num
  have hr : get_molecule_range extentXyz = ⟨10, 20, 5⟩ := by
    simp only [extentXyz, get_molecule_range, listMax, listMin, List.map,
      List.foldl, Vec3.mk.injEq]
    norm_num
  have hp1 : pyBaseStem ("rec.pdb") ++ "_hyd.pdb" = "rec_hyd.pdb" := by decide
  have hp2 : pyBaseStem ("rec.pdb") ++ ".pdbqt" = "rec.pdbqt" := by decide
  rw [hc, hr, hp1, hp2]
  have : ((10 : ℚ) + 5 = 15) ∧ ((20 : ℚ) + 5 = 25) ∧ ((5 : ℚ) + 5 = 10) := by norm_num
  rw [this.1, this.2.1, this.2.2]

/-! Helper lemmas: what the resolution phase can put into the trace. -/

theorem resolve_nn_trace_cases (g : VinaPoseGenerator) (co : Collab)
    (p l : String) (pc bd : Vec3) (tr : List Effect)
    (h : g.resolve_search_region co p l none none = .ok (pc, bd, tr)) :
    (∃ m : Molecule, g.detect_pockets = false ∧ tr =
      [.loadMolecule p, .writeMolecule (pyBaseStem p ++ "_hyd.pdb") m true,
       .writeMolecule (pyBaseStem p ++ ".pdbqt") m true]) ∨
    (g.detect_pockets = true ∧ tr = [.findPockets p l]) := by
  cases hdp : g.detect_pockets with
  | false =>
    cases hl : co.loadMol p with
    | none =>
      rw [resolve_fallback_err g co p l hdp hl] at h
      exact absurd h (by simp)
    | some rm =>
      rw [resolve_fallback g co p l hdp rm.1 rm.2 (by rw [hl])] at h
      simp only [Except.ok.injEq, Prod.mk.injEq] at h
      exact Or.inl ⟨rm.2, rfl, h.2.2.symm⟩
  | true =>
    rcases hfp : co.findPockets p l with ⟨pks, ams, pcs⟩
    cases pcs with
    | nil =>
      rw [resolve_pocket_coords_empty g co p l hdp pks ams hfp] at h
      exact absurd h (by simp)
    | cons pc0 pcs' =>
      cases pks with
      | nil =>
        rw [resolve_pockets_empty g co p l hdp ams pc0 pcs' hfp] at h
        exact absurd h (by simp)
      | cons pk0 pks' =>
        rw [resolve_pocket g co p l hdp pk0 pks' ams pc0 pcs' hfp] at h
        simp only [Except.ok.injEq, Prod.mk.injEq] at h
        exact Or.inr ⟨rfl, h.2.2.symm⟩

theorem resolve_ok_trace_cases (g : VinaPoseGenerator) (co : Collab)
    (p l : String) (c b : Option Vec3) (pc bd : Vec3) (tr : List Effect)
    (h : g.resolve_search_region co p l c b = .ok (pc, bd, tr)) :
    tr = [] ∨
    (∃ m : Molecule, tr =
      [.loadMolecule p, .writeMolecule (pyBaseStem p ++ "_hyd.pdb") m true,
       .writeMolecule (pyBaseStem p ++ ".pdbqt") m true]) ∨
    tr = [.findPockets p l] := by
  match c, b with
  | some c', some b' =>
    rw [resolve_explicit] at h
    simp only [Except.ok.injEq, Prod.mk.injEq] at h
    exact Or.inl h.2.2.symm
  | none, none =>
    rcases resolve_nn_trace_cases g co p l pc bd tr h with ⟨m, _, h1⟩ | ⟨_, h1⟩
    · exact Or.inr (Or.inl ⟨m, h1⟩)
    · exact Or.inr (Or.inr h1)
  | some c', none =>
    rcases resolve_nn_trace_cases g co p l pc bd tr h with ⟨m, _, h1⟩ | ⟨_, h1⟩
    · exact Or.inr (Or.inl ⟨m, h1⟩)
    · exact Or.inr (Or.inr h1)
  | none, some b' =>
    rcases resolve_nn_trace_cases g co p l pc bd tr h with ⟨m, _, h1⟩ | ⟨_, h1⟩
    · exact Or.inr (Or.inl ⟨m, h1⟩)
    · exact Or.inr (Or.inr h1)

theorem resolve_trace_no_conf (g : VinaPoseGenerator) (co : Collab)
    (p l : String) (c b : Option Vec3) (pc bd : Vec3) (tr : List Effect)
    (h : g.resolve_search_region co p l c b = .ok (pc, bd, tr)) :
    ∀ pth lines, Effect.writeConf pth lines ∉ tr := by
  intro pth lines hmem
  rcases resolve_ok_trace_cases g co p l c b pc bd tr h with h1 | ⟨m, h1⟩ | h1 <;>
    subst h1 <;> simp at hmem

/-- C10: every successful run of `generate_poses` writes exactly one
configuration file, named `conf.txt`, and every configuration written on the
run carries an `exhaustiveness` line with the generator's exhaustiveness,
which is an integer fixed at construction (defaulting to 10); the
optional-omission case of `write_conf` is unreachable through this entry
point. -/
theorem C10_exhaustiveness_always_written (g : VinaPoseGenerator) (co : Collab)
    (p l : String) (c b : Option Vec3) (d : Bool) (out : GPOutput)
    (h : g.generate_poses co p l c b d = .ok out) :
    (∃ lines, Effect.writeConf ("conf.txt") lines ∈ out.trace) ∧
    (∀ pth lines, Effect.writeConf pth lines ∈ out.trace →
      ("exhaustiveness = " ++ toString g.exhaustiveness) ∈ lines) ∧
    VinaPoseGenerator.default.exhaustiveness = 10 := by
  obtain ⟨pc, bd, tr₀, lxyz, lm, hres, hload, hout⟩ :=
    generate_poses_ok_inv g co p l c b d out h
  have hnoconf := resolve_trace_no_conf g co p l c b pc bd tr₀ hres
  subst hout
  refine ⟨⟨write_conf (pyBaseStem p ++ ".pdbqt") (pyBaseStem l ++ ".pdbqt") pc bd
    (some g.exhaustiveness), by simp⟩, ?_, rfl⟩
  intro pth lines hmem
  simp only [List.mem_append, List.mem_cons, List.not_mem_nil, or_false,
    List.mem_singleton] at hmem
  rcases hmem with ((hmem | hmem | hmem | hmem) | hmem)
  · exact absurd hmem (hnoconf pth lines)
  · exact absurd hmem (by simp)
  · exact absurd hmem (by simp)
  · obtain ⟨-, h2⟩ := Effect.writeConf.inj hmem
    subst h2
    simp [write_conf]
  · cases d with
    | true => simp at hmem
    | false =>
      simp only [if_neg, Bool.false_eq_true, not_false_iff, ite_false,
        List.mem_singleton] at hmem
      exact absurd hmem (by simp)

theorem C10_exhaustiveness_always_written_witness :
    (VinaPoseGenerator.default.generate_poses coStd ("p.pdb") ("l.sdf")
        (some ⟨0, 0, 0⟩) (some ⟨1, 1, 1⟩) true).isOk = true ∧
    (∃ lines, Effect.writeConf ("conf.txt") lines ∈
      [Effect.loadMolecule ("l.sdf"),
       Effect.writeMolecule (pyBaseStem ("l.sdf") ++ ".pdbqt") ⟨0⟩ false,
       Effect.writeConf ("conf.txt")
         (write_conf (pyBaseStem ("p.pdb") ++ ".pdbqt")
           (pyBaseStem ("l.sdf") ++ ".pdbqt") ⟨0, 0, 0⟩ ⟨1, 1, 1⟩ (some 10))]) ∧
    (("exhaustiveness = " ++ toString (10 : Int)) ∈
      write_conf (pyBaseStem ("p.pdb") ++ ".pdbqt")
        (pyBaseStem ("l.sdf") ++ ".pdbqt") ⟨0, 0, 0⟩ ⟨1, 1, 1⟩ (some 10)) := by
  have hrun : VinaPoseGenerator.default.generate_poses coStd ("p.pdb") ("l.sdf")
      (some ⟨0, 0, 0⟩) (some ⟨1, 1, 1⟩) true = .ok
      ⟨pyBaseStem ("p.pdb") ++ "_hyd.pdb", pyBaseStem ("l.sdf") ++ "_docked.pdbqt",
       [Effect.loadMolecule ("l.sdf"),
        Effect.writeMolecule (pyBaseStem ("l.sdf") ++ ".pdbqt") ⟨0⟩ false,
        Effect.writeConf ("conf.txt")
          (write_conf (pyBaseStem ("p.pdb") ++ ".pdbqt")
            (pyBaseStem ("l.sdf") ++ ".pdbqt") ⟨0, 0, 0⟩ ⟨1, 1, 1⟩ (some 10))]⟩ := rfl
  have h := C10_exhaustiveness_always_written VinaPoseGenerator.default coStd
    ("p.pdb") ("l.sdf") (some ⟨0, 0, 0⟩) (some ⟨1, 1, 1⟩) true _ hrun
  refine ⟨by rw [hrun]; rfl, h.1, ?_⟩
  exact h.2.1 ("conf.txt") _ (by simp)

/-- C8: in a non-dry-run call, the subprocess exit status reported by the
engine (`vinaExit`) is never consulted: for every exit status the run
succeeds with the same returned pair of paths (the hydrogenated receptor
path and the docked-output path) and the same trace, ending in the engine
invocation; no error is raised for a nonzero status. -/
theorem C8_exit_status_ignored (g : VinaPoseGenerator) (co : Collab)
    (p l : String) (c b : Option Vec3)
    (pc bd : Vec3) (tr₀ : List Effect) (lxyz : List Vec3) (lm : Molecule)
    (hres : g.resolve_search_region co p l c b = .ok (pc, bd, tr₀))
    (hload : co.loadMol l = some (lxyz, lm)) :
    ∀ e : Int,
      g.generate_poses { co with vinaExit := e } p l c b false = .ok
        ⟨pyBaseStem p ++ "_hyd.pdb", pyBaseStem l ++ "_docked.pdbqt",
         tr₀ ++ [.loadMolecule l,
                 .writeMolecule (pyBaseStem l ++ ".pdbqt") lm false,
                 .writeConf ("conf.txt")
                   (write_conf (pyBaseStem p ++ ".pdbqt") (pyBaseStem l ++ ".pdbqt")
                     pc bd (some g.exhaustiveness)),
                 .callVina ("conf.txt") (pyBaseStem l ++ "_log.txt")
                   (pyBaseStem l ++ "_docked.pdbqt")]⟩ := by
  intro e
  have hres2 : g.resolve_search_region { co with vinaExit := e } p l c b =
      .ok (pc, bd, tr₀) := hres
  have hload2 : Collab.loadMol { co with vinaExit := e } l = some (lxyz, lm) := hload
  have h := generate_poses_ok g { co with vinaExit := e } p l c b false
    pc bd tr₀ lxyz lm hres2 hload2
  rw [h]
  simp

theorem C8_exit_status_ignored_witness :
    VinaPoseGenerator.default.resolve_search_region coStd ("p.pdb") ("l.sdf")
        (some ⟨0, 0, 0⟩) (some ⟨1, 1, 1⟩) = .ok (⟨0, 0, 0⟩, ⟨1, 1, 1⟩, []) ∧
    coStd.loadMol ("l.sdf") = some ([], ⟨0⟩) ∧
    VinaPoseGenerator.default.generate_poses { coStd with vinaExit := 7 }
        ("p.pdb") ("l.sdf") (some ⟨0, 0, 0⟩) (some ⟨1, 1, 1⟩) false =
      VinaPoseGenerator.default.generate_poses { coStd with vinaExit := 0 }
        ("p.pdb") ("l.sdf") (some ⟨0, 0, 0⟩) (some ⟨1, 1, 1⟩) false := by
  have h := C8_exit_status_ignored VinaPoseGenerator.default coStd
    ("p.pdb") ("l.sdf") (some ⟨0, 0, 0⟩) (some ⟨1, 1, 1⟩)
    ⟨0, 0, 0⟩ ⟨1, 1, 1⟩ [] [] ⟨0⟩ rfl rfl
  exact ⟨rfl, rfl, (h 7).trans (h 0).symm⟩

/-- Does any effect of the trace write the file named `q`? -/
def writesToB (tr : List Effect) (q : String) : Bool :=
  tr.any (fun e => e.writesTo q)

/-- C1 (amended): in the fallback branch (pocket detection disabled and no
explicit region), receptor preparation happens before ligand preparation:
the hydrogenated receptor file and the engine-format receptor file are
written, in that order, before the ligand's engine-format file, and the
returned first component is the hydrogenated receptor path.  (In the other
two branches the receptor files are not written at all; see the
counterexample.) -/
theorem C1_receptor_prep_order (g : VinaPoseGenerator) (co : Collab)
    (p l : String) (d : Bool)
    (hdp : g.detect_pockets = false)
    (xyz : List Vec3) (m : Molecule) (hload : co.loadMol p = some (xyz, m))
    (lxyz : List Vec3) (lm : Molecule) (hloadl : co.loadMol l = some (lxyz, lm)) :
    g.generate_poses co p l none none d = .ok
      ⟨pyBaseStem p ++ "_hyd.pdb", pyBaseStem l ++ "_docked.pdbqt",
       [.loadMolecule p,
        .writeMolecule (pyBaseStem p ++ "_hyd.pdb") m true,
        .writeMolecule (pyBaseStem p ++ ".pdbqt") m true,
        .loadMolecule l,
        .writeMolecule (pyBaseStem l ++ ".pdbqt") lm false,
        .writeConf ("conf.txt")
          (write_conf (pyBaseStem p ++ ".pdbqt") (pyBaseStem l ++ ".pdbqt")
            (get_molecule_centroid xyz) ((get_molecule_range xyz).addScalar 5)
            (some g.exhaustiveness))] ++
       (if d then [] else
         [.callVina ("conf.txt") (pyBaseStem l ++ "_log.txt")
           (pyBaseStem l ++ "_docked.pdbqt")])⟩ := by
  have hres := resolve_fallback g co p l hdp xyz m hload
  have h := generate_poses_ok g co p l none none d
    (get_molecule_centroid xyz) ((get_molecule_range xyz).addScalar 5)
    ([.loadMolecule p,
      .writeMolecule (pyBaseStem p ++ "_hyd.pdb") m true,
      .writeMolecule (pyBaseStem p ++ ".pdbqt") m true]) lxyz lm hres hloadl
  rw [h]
  simp

theorem C1_receptor_prep_order_witness :
    gNoPockets.detect_pockets = false ∧
    coExtent.loadMol ("rec.pdb") = some (extentXyz, ⟨1⟩) ∧
    coExtent.loadMol ("lig.sdf") = some (extentXyz, ⟨1⟩) ∧
    gNoPockets.generate_poses coExtent ("rec.pdb") ("lig.sdf") none none true = .ok
      ⟨pyBaseStem ("rec.pdb") ++ "_hyd.pdb", pyBaseStem ("lig.sdf") ++ "_docked.pdbqt",
       [.loadMolecule ("rec.pdb"),
        .writeMolecule (pyBaseStem ("rec.pdb") ++ "_hyd.pdb") ⟨1⟩ true,
        .writeMolecule (pyBaseStem ("rec.pdb") ++ ".pdbqt") ⟨1⟩ true,
        .loadMolecule ("lig.sdf"),
        .writeMolecule (pyBaseStem ("lig.sdf") ++ ".pdbqt") ⟨1⟩ false,
        .writeConf ("conf.txt")
          (write_conf (pyBaseStem ("rec.pdb") ++ ".pdbqt")
            (pyBaseStem ("lig.sdf") ++ ".pdbqt")
            (get_molecule_centroid extentXyz)
            ((get_molecule_range extentXyz).addScalar 5) (some 10))]⟩ := by
  have h := C1_receptor_prep_order gNoPockets coExtent ("rec.pdb") ("lig.sdf") true
    rfl extentXyz ⟨1⟩ rfl extentXyz ⟨1⟩ rfl
  refine ⟨rfl, rfl, rfl, ?_⟩
  rw [h]
  simp [gNoPockets]

/-- C1 (counterexample): in a call that supplies an explicit search region,
the run succeeds, returns the hydrogenated receptor path as its first
component, writes the ligand's engine-format file, but writes neither the
hydrogenated receptor file nor the engine-format receptor file — so receptor
preparation does not happen before ligand preparation in every branch, as
the claim states. -/
theorem C1_receptor_prep_order_counterexample :
    (VinaPoseGenerator.default.generate_poses coStd ("p.pdb") ("l.sdf")
        (some ⟨1, 1, 1⟩) (some ⟨1, 1, 1⟩) true).map
      (fun o => (o.protein_hyd,
        writesToB o.trace (pyBaseStem ("p.pdb") ++ "_hyd.pdb"),
        writesToB o.trace (pyBaseStem ("p.pdb") ++ ".pdbqt"),
        writesToB o.trace (pyBaseStem ("l.sdf") ++ ".pdbqt"))) =
      .ok ("p_hyd.pdb", false, false, true) := by
  rfl

/-- C6: `write_conf` emits key=value lines in the fixed order `receptor`,
`ligand`, `center_x/y/z`, `size_x/y/z`, followed by an `exhaustiveness` line
exactly when the argument is provided (no line at all otherwise); re-parsing
the written key=value pairs recovers the paths exactly and the numeric
values up to the `%f` rendering; and replaying the configuration write over
any prior filesystem state overwrites the destination unconditionally. -/
theorem C6_write_conf_roundtrip (r l : String) (c b : Vec3) (ex : Option Int) :
    parseConfLines (write_conf r l c b ex) =
      ([("receptor", r), ("ligand", l),
        ("center_x", fmtRat6 c.x), ("center_y", fmtRat6 c.y),
        ("center_z", fmtRat6 c.z),
        ("size_x", fmtRat6 b.x), ("size_y", fmtRat6 b.y),
        ("size_z", fmtRat6 b.z)] ++
       (match ex with
        | none => []
        | some n => [("exhaustiveness", toString n)])) ∧
    (∀ fs : FS, ∀ pth : String,
      runFS fs [Effect.writeConf pth (write_conf r l c b ex)] pth =
        some (.conf (write_conf r l c b ex))) := by
  constructor
  · have h1 : splitKVChars ((("receptor = ") ++ r).data) =
        some (("receptor").data, r.data) :=
      splitKV_line ("receptor = ") ("receptor") r rfl (by decide)
    have h2 : splitKVChars ((("ligand = ") ++ l).data) =
        some (("ligand").data, l.data) :=
      splitKV_line ("ligand = ") ("ligand") l rfl (by decide)
    have h3 : splitKVChars ((("center_x = ") ++ fmtRat6 c.x).data) =
        some (("center_x").data, (fmtRat6 c.x).data) :=
      splitKV_line ("center_x = ") ("center_x") (fmtRat6 c.x) rfl (by decide)
    have h4 : splitKVChars ((("center_y = ") ++ fmtRat6 c.y).data) =
        some (("center_y").data, (fmtRat6 c.y).data) :=
      splitKV_line ("center_y = ") ("center_y") (fmtRat6 c.y) rfl (by decide)
    have h5 : splitKVChars ((("center_z = ") ++ fmtRat6 c.z).data) =
        some (("center_z").data, (fmtRat6 c.z).data) :=
      splitKV_line ("center_z = ") ("center_z") (fmtRat6 c.z) rfl (by decide)
    have h6 : splitKVChars ((("size_x = ") ++ fmtRat6 b.x).data) =
        some (("size_x").data, (fmtRat6 b.x).data) :=
      splitKV_line ("size_x = ") ("size_x") (fmtRat6 b.x) rfl (by decide)
    have h7 : splitKVChars ((("size_y = ") ++ fmtRat6 b.y).data) =
        some (("size_y").data, (fmtRat6 b.y).data) :=
      splitKV_line ("size_y = ") ("size_y") (fmtRat6 b.y) rfl (by decide)
    have h8 : splitKVChars ((("size_z = ") ++ fmtRat6 b.z).data) =
        some (("size_z").data, (fmtRat6 b.z).data) :=
      splitKV_line ("size_z = ") ("size_z") (fmtRat6 b.z) rfl (by decide)
    have hb : splitKVChars (("").data) = none := rfl
    cases ex with
    | none =>
      simp only [write_conf, parseConfLines, List.filterMap_append,
        List.filterMap_cons, List.filterMap_nil, h1, h2, h3, h4, h5, h6, h7, h8,
        hb, List.append_nil]
    | some n =>
      have h9 : splitKVChars ((("exhaustiveness = ") ++ toString n).data) =
          some (("exhaustiveness").data, (toString n).data) :=
        splitKV_line ("exhaustiveness = ") ("exhaustiveness") (toString n) rfl
          (by decide)
      simp only [write_conf, parseConfLines, List.filterMap_append,
        List.filterMap_cons, List.filterMap_nil, h1, h2, h3, h4, h5, h6, h7, h8,
        hb, h9]
  · intro fs pth
    simp [runFS, applyEffect, fsWrite]

/-- C7 (amended): a dry run never invokes the engine subprocess, never
creates or modifies the log file, produces the configuration file and the
ligand's engine-format file, and — provided the receptor's base name is not
the ligand's base name followed by `_docked` (a collision that, in the
fallback branch, makes the receptor's engine-format file land exactly on the
docked-output path) — neither creates nor modifies the output file. -/
theorem C7_dry_run_frame (g : VinaPoseGenerator) (co : Collab)
    (p l : String) (c b : Option Vec3) (out : GPOutput) (fs : FS)
    (h : g.generate_poses co p l c b true = .ok out) :
    (∀ e ∈ out.trace, e.isCall = false) ∧
    runFS fs out.trace (pyBaseStem l ++ "_log.txt") =
      fs (pyBaseStem l ++ "_log.txt") ∧
    (∃ lines, runFS fs out.trace ("conf.txt") = some (.conf lines)) ∧
    (∃ lm0 : Molecule, runFS fs out.trace (pyBaseStem l ++ ".pdbqt") =
      some (.mol lm0 false)) ∧
    (pyBaseStem p ≠ pyBaseStem l ++ "_docked" →
      runFS fs out.trace (pyBaseStem l ++ "_docked.pdbqt") =
        fs (pyBaseStem l ++ "_docked.pdbqt")) := by
  obtain ⟨pc, bd, tr₀, lxyz, lm, hres, hload, hout⟩ :=
    generate_poses_ok_inv g co p l c b true out h
  have hLC : pyBaseStem l ++ "_log.txt" ≠ ("conf.txt") :=
    str_append_ne_lit _ _ 5 (by decide) (by decide) (by decide) _
  have hLH : ∀ a : String, pyBaseStem l ++ "_log.txt" ≠ a ++ "_hyd.pdb" :=
    fun a => str_append_ne _ _ 1 (by decide) (by decide) (by decide) _ a
  have hLR : ∀ a : String, pyBaseStem l ++ "_log.txt" ≠ a ++ ".pdbqt" :=
    fun a => str_append_ne _ _ 2 (by decide) (by decide) (by decide) _ a
  have hOG : pyBaseStem l ++ "_docked.pdbqt" ≠ pyBaseStem l ++ ".pdbqt" :=
    str_append_left_cancel_ne _ _ _ (by decide)
  have hOC : pyBaseStem l ++ "_docked.pdbqt" ≠ ("conf.txt") :=
    str_append_ne_lit _ _ 2 (by decide) (by decide) (by decide) _
  have hOH : ∀ a : String, pyBaseStem l ++ "_docked.pdbqt" ≠ a ++ "_hyd.pdb" :=
    fun a => str_append_ne _ _ 1 (by decide) (by decide) (by decide) _ a
  have hGC : pyBaseStem l ++ ".pdbqt" ≠ ("conf.txt") :=
    str_append_ne_lit _ _ 2 (by decide) (by decide) (by decide) _
  have hOR : pyBaseStem p ≠ pyBaseStem l ++ "_docked" →
      pyBaseStem l ++ "_docked.pdbqt" ≠ pyBaseStem p ++ ".pdbqt" := by
    intro hcol
    have he2 : ("_docked") ++ (".pdbqt") = ("_docked.pdbqt") := by decide
    rw [← he2, ← str_append_assoc]
    exact str_append_right_cancel_ne _ _ _ (Ne.symm hcol)
  subst hout
  rcases resolve_ok_trace_cases g co p l c b pc bd tr₀ hres with h0 | ⟨m, h0⟩ | h0 <;>
    subst h0
  · refine ⟨?_, ?_, ⟨write_conf (pyBaseStem p ++ ".pdbqt") (pyBaseStem l ++ ".pdbqt")
      pc bd (some g.exhaustiveness), ?_⟩, ⟨lm, ?_⟩, ?_⟩
    · intro e he
      simp only [List.nil_append, List.mem_append, List.mem_cons,
        List.not_mem_nil, or_false] at he
      cases e <;> first | rfl | (exfalso; simp at he)
    · simp [runFS, applyEffect, fsWrite, hLR, hLC]
    · simp [runFS, applyEffect, fsWrite]
    · simp [runFS, applyEffect, fsWrite, hGC]
    · intro hcol
      simp [runFS, applyEffect, fsWrite, hOG, hOC]
  · refine ⟨?_, ?_, ⟨write_conf (pyBaseStem p ++ ".pdbqt") (pyBaseStem l ++ ".pdbqt")
      pc bd (some g.exhaustiveness), ?_⟩, ⟨lm, ?_⟩, ?_⟩
    · intro e he
      simp only [List.mem_append, List.mem_cons, List.not_mem_nil, or_false] at he
      cases e <;> first | rfl | (exfalso; simp at he)
    · simp [runFS, applyEffect, fsWrite, hLR, hLC, hLH]
    · simp [runFS, applyEffect, fsWrite]
    · simp [runFS, applyEffect, fsWrite, hGC]
    · intro hcol
      simp [runFS, applyEffect, fsWrite, hOG, hOC, hOH, hOR hcol]
  · refine ⟨?_, ?_, ⟨write_conf (pyBaseStem p ++ ".pdbqt") (pyBaseStem l ++ ".pdbqt")
      pc bd (some g.exhaustiveness), ?_⟩, ⟨lm, ?_⟩, ?_⟩
    · intro e he
      simp only [List.mem_append, List.mem_cons, List.not_mem_nil, or_false] at he
      cases e <;> first | rfl | (exfalso; simp at he)
    · simp [runFS, applyEffect, fsWrite, hLR, hLC]
    · simp [runFS, applyEffect, fsWrite]
    · simp [runFS, applyEffect, fsWrite, hGC]
    · intro hcol
      simp [runFS, applyEffect, fsWrite, hOG, hOC]

/-- The empty filesystem state. -/
def fs0 : FS :=
  fun _ => none

/-- The output of a dry explicit-region run used to instantiate the dry-run
frame theorem. -/
def dryOut : GPOutput :=
  ⟨"p_hyd.pdb", "l_docked.pdbqt",
   [.loadMolecule ("l.sdf"),
    .writeMolecule ("l.pdbqt") ⟨0⟩ false,
    .writeConf ("conf.txt")
      (write_conf ("p.pdbqt") ("l.pdbqt") ⟨1, 1, 1⟩ ⟨2, 2, 2⟩ (some 10))]⟩

theorem C7_dry_run_frame_witness :
    pyBaseStem ("p.pdb") ≠ pyBaseStem ("l.sdf") ++ "_docked" ∧
    VinaPoseGenerator.default.generate_poses coStd ("p.pdb") ("l.sdf")
        (some ⟨1, 1, 1⟩) (some ⟨2, 2, 2⟩) true = .ok dryOut ∧
    runFS fs0 dryOut.trace (pyBaseStem ("l.sdf") ++ "_log.txt") =
      fs0 (pyBaseStem ("l.sdf") ++ "_log.txt") ∧
    runFS fs0 dryOut.trace (pyBaseStem ("l.sdf") ++ "_docked.pdbqt") =
      fs0 (pyBaseStem ("l.sdf") ++ "_docked.pdbqt") := by
  have hrun : VinaPoseGenerator.default.generate_poses coStd ("p.pdb") ("l.sdf")
      (some ⟨1, 1, 1⟩) (some ⟨2, 2, 2⟩) true = .ok dryOut := rfl
  have h := C7_dry_run_frame VinaPoseGenerator.default coStd ("p.pdb") ("l.sdf")
    (some ⟨1, 1, 1⟩) (some ⟨2, 2, 2⟩) dryOut fs0 hrun
  exact ⟨by decide, hrun, h.2.1, h.2.2.2.2 (by decide)⟩

/-- A collaborator whose loader always succeeds, used for the base-name
collision run. -/
def coDocked : Collab :=
  ⟨fun _ => some ([], ⟨2⟩), fun _ _ => ([], [], []), 0⟩

/-- C7 (counterexample): a dry run in the fallback branch with receptor file
`a_docked.pdb` and ligand file `a.sdf` starts from an empty filesystem, yet
afterwards the docked-output path `a_docked.pdbqt` exists: the receptor's
engine-format file lands exactly on the output path, so a dry run can create
the output file, contradicting the claim as stated. -/
theorem C7_dry_run_counterexample :
    fs0 ("a_docked.pdbqt") = none ∧
    (gNoPockets.generate_poses coDocked ("a_docked.pdb") ("a.sdf")
        none none true).map
      (fun o => (o.out_pdbqt,
        (runFS fs0 o.trace (pyBaseStem ("a.sdf") ++ "_docked.pdbqt")).isSome)) =
      .ok ("a_docked.pdbqt", true) := by
  exact ⟨rfl, rfl⟩
